import Mathlib

/-!
Verification of the client-side auth/session layer:
the request client (error normalization, envelope unwrapping, header
construction), the token manager, and the confirm-reset flow step.

JavaScript values that flow through the request client are modelled by a
JSON value type; JavaScript truthiness and property access are modelled
explicitly.  Undefined (the result of accessing a missing property, or any
property of a non-object primitive) is collapsed into `Json.null`: both are
falsy, neither is a string, and neither passes the `typeof x === "object"`
&& truthiness test, so every branch taken in the modelled code is
unaffected by the collapse.
-/

/-- JSON / JavaScript values as decoded by response.json(). -/
inductive Json where
  | null
  | bool (b : Bool)
  | num (n : Int)
  | str (s : String)
  | arr (elems : List Json)
  | obj (fields : List (String × Json))
deriving Repr

/-- JavaScript truthiness: null/undefined, false, 0 and "" are falsy;
every object and array is truthy. -/
def truthy : Json → Bool
  | .null => false
  | .bool b => b
  | .num n => decide (n ≠ 0)
  | .str s => decide (s ≠ "")
  | .arr _ => true
  | .obj _ => true

/-- Property lookup: objects yield their field (first binding wins, as a
decoded JSON object has unique keys); every other value yields undefined
(`none`). -/
def getField : Json → String → Option Json
  | .obj fields, k => (fields.find? (fun p => p.1 == k)).map Prod.snd
  | _, _ => none

/-- Property access with undefined collapsed to `Json.null`. -/
def getF (j : Json) (k : String) : Json := (getField j k).getD .null

/-- Whether a value has the named property at all (ignoring truthiness). -/
def hasField (j : Json) (k : String) : Bool := (getField j k).isSome

/-- JavaScript `a || b`: `a` if truthy, else `b`. -/
def jsOr (a b : Json) : Json := if truthy a then a else b

/-- JavaScript `typeof x === "object"` (true for objects, arrays and null). -/
def typeofObject : Json → Bool
  | .obj _ => true
  | .arr _ => true
  | .null => true
  | _ => false

/-- The ternary `typeof e === "string" ? e : null` from the normalizer. -/
def stringOrNull : Json → Json
  | .str s => .str s
  | _ => .null

/-- Whether a value is a string (`typeof x === "string"`). -/
def isStr : Json → Bool
  | .str _ => true
  | _ => false

/-- The HTTP-status fallback phrase built by the template literal. -/
def httpFallback (status : Nat) (statusText : String) : String :=
  "HTTP " ++ toString status ++ ": " ++ statusText

/-- The error-message normalization of ApiClient.request on a non-OK
response, applied to the decoded error body (decode failure yields the
empty object before this code runs):

    let errorMessage = errorData.message ||
                       errorData.error?.message ||
                       (typeof errorData.error === "string" ? errorData.error : null) ||
                       fallback;
    if (errorData.data && typeof errorData.data === "object") {
      errorMessage = errorData.data.message ||
                     errorData.data.error?.message ||
                     errorMessage;
    }
    if (typeof errorMessage !== "string") { errorMessage = fallback; }

The returned value is the final errorMessage handed to the Error
constructor. -/
def normalizeError (errorData : Json) (status : Nat) (statusText : String) : Json :=
  let fb := httpFallback status statusText
  let m1 := jsOr (getF errorData "message")
              (jsOr (getF (getF errorData "error") "message")
                (jsOr (stringOrNull (getF errorData "error")) (.str fb)))
  let d := getF errorData "data"
  let m2 := if truthy d && typeofObject d then
              jsOr (getF d "message") (jsOr (getF (getF d "error") "message") m1)
            else m1
  if isStr m2 then m2 else .str fb

/-- The success-path envelope unwrapping of ApiClient.request:

    const data = await response.json();
    if (data.data) { return data.data; }
    return data;
-/
def unwrapResponse (data : Json) : Json :=
  if truthy (getF data "data") then getF data "data" else data

/-- Steps 1-3 of the ordered fallback chain as the spec words them:
(1) body.message if it is a string; (2) body.error.message if body.error
is an object with a string message; (3) body.error itself if it is a
string.  Yields none when no step produces a string. -/
def specSteps123 (b : Json) : Option String :=
  match getF b "message" with
  | .str s => some s
  | _ =>
    match getF b "error" with
    | .obj fields =>
      match getF (.obj fields) "message" with
      | .str s => some s
      | _ => none
    | .str s => some s
    | _ => none

/-- The full claimed chain as the spec words it: steps 1-3 on the body;
if body.data is an object, steps 1-3 repeated against body.data, overriding
the outer result only if it yields a string; else the HTTP fallback. -/
def specMessage (b : Json) (status : Nat) (statusText : String) : String :=
  let outer := specSteps123 b
  let withData :=
    match getF b "data" with
    | .obj fields =>
      match specSteps123 (.obj fields) with
      | some s => some s
      | none => outer
    | _ => outer
  withData.getD (httpFallback status statusText)

/-- First truthy value in the list, else the supplied default. -/
def firstTruthy (l : List Json) (dflt : Json) : Json :=
  match l with
  | [] => dflt
  | x :: xs => if truthy x then x else firstTruthy xs dflt

/-- A string value itself, anything else replaced by the fallback. -/
def stringElse (m : Json) (fb : String) : String :=
  match m with
  | .str s => s
  | _ => fb

/-- The chain the code actually implements, in the amended claim's words:
take the first truthy of body.message, body.error.message, and
body.error-if-it-is-a-string, else the HTTP fallback; then, if body.data
is truthy and of object type, override with the first truthy of
body.data.message and body.data.error.message, keeping the previous result
when neither is truthy (body.data.error as a bare string is not
consulted); finally, if the resulting value is not a string, replace it
with the HTTP fallback. -/
def amendedMessage (b : Json) (status : Nat) (statusText : String) : String :=
  let fb := httpFallback status statusText
  let outer := firstTruthy
      [getF b "message", getF (getF b "error") "message", stringOrNull (getF b "error")]
      (.str fb)
  let d := getF b "data"
  let m := if truthy d && typeofObject d then
             firstTruthy [getF d "message", getF (getF d "error") "message"] outer
           else outer
  stringElse m fb

/-!  Header construction in ApiClient.request.

    const config = {
      headers: { "Content-Type": "application/json", ...options.headers },
      ...options,
    };
    if (this.accessToken) {
      config.headers = { ...config.headers, Authorization: "Bearer " + token };
    }

A JavaScript object literal is modelled as an association list in which a
later binding overrides an earlier one, so spreads are list appends and
lookup takes the last matching key.  Because the `...options` spread comes
after the `headers:` entry, an options object that carries its own
`headers` property replaces the merged default wholesale. -/

/-- Lookup in a JavaScript-object association list: the last binding of
the key wins, mirroring later-spread-overrides-earlier semantics. -/
def getHeader (hs : List (String × String)) (k : String) : Option String :=
  match hs with
  | [] => none
  | (k2, v) :: rest =>
    match getHeader rest k with
    | some v2 => some v2
    | none => if k2 == k then some v else none

/-- The headers of the config object built by ApiClient.request, given the
caller's optional headers object and the client's access token
(`string | null`, tested for truthiness, so an empty-string token attaches
nothing). -/
def configHeaders (optionsHeaders : Option (List (String × String)))
    (accessToken : Option String) : List (String × String) :=
  let merged := ("Content-Type", "application/json") :: optionsHeaders.getD []
  let headers0 :=
    match optionsHeaders with
    | some hs => hs
    | none => merged
  match accessToken with
  | some t => if t ≠ "" then headers0 ++ [("Authorization", "Bearer " ++ t)] else headers0
  | none => headers0

/-!  TokenManager.

localStorage is modelled as the two named slots the class touches; the
`typeof window !== "undefined"` guard is the boolean `w`: with `w = false`
every operation is a no-op and every read yields null. -/

/-- JavaScript truthiness of a `string | null` value: null and "" are
falsy. -/
def strTruthy : Option String → Bool
  | none => false
  | some s => decide (s ≠ "")

/-- The two localStorage slots TokenManager touches. -/
structure TokenStorage where
  access : Option String
  refresh : Option String
deriving DecidableEq, Repr

/-- TokenManager.setTokens: stores both slots (no-op outside a window). -/
def setTokens (w : Bool) (st : TokenStorage) (accessToken refreshToken : String) : TokenStorage :=
  if w then ⟨some accessToken, some refreshToken⟩ else st

/-- TokenManager.getAccessToken. -/
def getAccessToken (w : Bool) (st : TokenStorage) : Option String :=
  if w then st.access else none

/-- TokenManager.getRefreshToken. -/
def getRefreshToken (w : Bool) (st : TokenStorage) : Option String :=
  if w then st.refresh else none

/-- TokenManager.clearTokens: removes both slots (no-op outside a window). -/
def clearTokens (w : Bool) (st : TokenStorage) : TokenStorage :=
  if w then ⟨none, none⟩ else st

/-- Outcome of the backend refresh-token endpoint call, a parameter of the
model: either the response's token pair or a thrown failure. -/
inductive RefreshBackend where
  | success (accessToken refreshToken : String)
  | failure
deriving DecidableEq, Repr

/-- What a call to TokenManager.refreshAccessToken produced: the storage
afterwards, the returned value, and whether the network was hit. -/
structure RefreshResult where
  store : TokenStorage
  returned : Option String
  networkCalled : Bool
deriving DecidableEq, Repr

/-- TokenManager.refreshAccessToken:

    const refreshToken = this.getRefreshToken();
    if (!refreshToken) { return null; }
    try {
      const response = await apiClient.refreshToken(refreshToken);
      this.setTokens(response.access_token, response.refresh_token);
      return response.access_token;
    } catch (error) {
      this.clearTokens();
      return null;
    }
-/
def refreshAccessToken (w : Bool) (st : TokenStorage) (backend : RefreshBackend) : RefreshResult :=
  let refreshToken := getRefreshToken w st
  if strTruthy refreshToken = false then ⟨st, none, false⟩
  else
    match backend with
    | .success a r => ⟨setTokens w st a r, some a, true⟩
    | .failure => ⟨clearTokens w st, none, true⟩

/-- A TokenManager mutating operation (getters do not mutate). -/
inductive TokenOp where
  | set (accessToken refreshToken : String)
  | clear
  | refresh (backend : RefreshBackend)
deriving DecidableEq, Repr

/-- Storage after one TokenManager operation. -/
def applyTokenOp (w : Bool) (st : TokenStorage) : TokenOp → TokenStorage
  | .set a r => setTokens w st a r
  | .clear => clearTokens w st
  | .refresh b => (refreshAccessToken w st b).store

/-- Storage after a sequence of TokenManager operations. -/
def runTokenOps (w : Bool) (st : TokenStorage) (ops : List TokenOp) : TokenStorage :=
  ops.foldl (applyTokenOp w) st

/-- The pairing invariant: both token slots are occupied or both are
empty. -/
def paired (st : TokenStorage) : Bool :=
  st.access.isSome == st.refresh.isSome

/-!  The confirm-reset step (VerifyResetPassword page).

sessionStorage is modelled as the two named slots the page touches
(`reset_password_email` and `verified_otp`); a value the page never wrote
is null (`none`).  The backend call and the signIn session bridge are
parameters of the model; router.push calls are collected in order. -/

/-- The two sessionStorage slots of the reset flow. -/
structure FlowState where
  resetEmail : Option String
  verifiedOtp : Option String
deriving DecidableEq, Repr

/-- The mount-time guard of the page:

    const storedEmail = sessionStorage.getItem("reset_password_email");
    const verifiedOtp = sessionStorage.getItem("verified_otp");
    if (storedEmail) { setEmail(storedEmail); }
    else { router.push("/auth/reset-password"); }
    if (!verifiedOtp) { router.push("/auth/verify-otp-reset"); }

Both ifs run unconditionally (there is no early return between them), so
the result is the ordered list of router.push calls the guard issues. -/
def guardRedirects (storedEmail verifiedOtp : Option String) : List String :=
  (if strTruthy storedEmail then [] else ["/auth/reset-password"]) ++
  (if strTruthy verifiedOtp then [] else ["/auth/verify-otp-reset"])

/-- Outcome of the apiClient.verifyResetPassword backend call: the tokens
of its response, or a thrown Error carrying the normalized message. -/
inductive BackendCall where
  | success (accessToken refreshToken : String)
  | failure (msg : String)
deriving DecidableEq, Repr

/-- Outcome of the signIn session bridge: resolves with ok, resolves
without ok, or rejects. -/
inductive LoginOutcome where
  | ok
  | notOk
  | raised
deriving DecidableEq, Repr

/-- Everything observable about one run of the page's
verifyResetPassword handler. -/
structure SubmitTrace where
  backendCall : Option (String × String × String)
  storageAtLogin : Option FlowState
  loginCall : Option (String × String)
  finalStorage : FlowState
  redirects : List String
  successToast : Bool
  errorShown : Option String
deriving DecidableEq, Repr

/-- A run that stopped before the backend call: storage untouched, the
given toast description shown, the given redirects issued. -/
def localStopTrace (st : FlowState) (msg : String) (redirects : List String) : SubmitTrace :=
  ⟨none, none, none, st, redirects, false, some msg⟩

/-- The page's verifyResetPassword handler: the five local checks in
source order, each short-circuiting with a destructive toast; then the
backend call with the stored verified OTP; on success both sessionStorage
slots are removed before signIn is attempted; on failure only
verified_otp is removed. -/
def verifyResetPassword (email newPassword confirmPassword : String)
    (st : FlowState) (backend : BackendCall) (login : LoginOutcome) : SubmitTrace :=
  if email = "" then
    localStopTrace st "Silakan mulai ulang proses reset password" []
  else if newPassword = "" ∨ confirmPassword = "" then
    localStopTrace st "Silakan masukkan password baru dan konfirmasi password" []
  else if newPassword ≠ confirmPassword then
    localStopTrace st "Password baru dan konfirmasi password tidak sama" []
  else if newPassword.length < 6 then
    localStopTrace st "Password minimal 6 karakter" []
  else
    match st.verifiedOtp, strTruthy st.verifiedOtp with
    | some otp, true =>
      let called := some (email, otp, newPassword)
      match backend with
      | .success a r =>
        let cleared : FlowState := ⟨none, none⟩
        match login with
        | .ok =>
          ⟨called, some cleared, some (a, r), cleared, ["/"], true, none⟩
        | .notOk =>
          ⟨called, some cleared, some (a, r), cleared, ["auth/login"], true, none⟩
        | .raised =>
          ⟨called, some cleared, some (a, r), cleared, ["/auth/login"], true, none⟩
      | .failure msg =>
        ⟨called, none, none, { st with verifiedOtp := none }, [], false, some msg⟩
    | _, _ =>
      localStopTrace st "Silakan verifikasi OTP terlebih dahulu" ["/auth/verify-otp-reset"]

/-- All five local checks of the handler pass. -/
def passesLocalChecks (email newPassword confirmPassword : String) (st : FlowState) : Bool :=
  decide (email ≠ "") && decide (newPassword ≠ "") && decide (confirmPassword ≠ "") &&
  (newPassword == confirmPassword) && decide (¬ (newPassword.length < 6)) &&
  strTruthy st.verifiedOtp

/-!  Helper lemmas. -/

theorem truthy_str_iff (s : String) : truthy (Json.str s) = true ↔ s ≠ "" := by
  simp [truthy]

theorem jsOr_truthy (a b : Json) (h : truthy b = true) : truthy (jsOr a b) = true := by
  unfold jsOr
  split <;> simp_all

theorem httpFallback_ne_empty (status : Nat) (statusText : String) :
    httpFallback status statusText ≠ "" := by
  intro h
  have hlen := congrArg String.length h
  simp [httpFallback, String.length_append] at hlen
  exact absurd hlen.1.1.1 (by decide)

theorem finalCheck_str (m : Json) (fb : String) (hfb : fb ≠ "") (ht : truthy m = true) :
    ∃ s : String, (if isStr m then m else Json.str fb) = Json.str s ∧ s ≠ "" := by
  cases m with
  | str s => exact ⟨s, by simp [isStr], (truthy_str_iff s).mp ht⟩
  | null => exact ⟨fb, by simp [isStr], hfb⟩
  | bool b => exact ⟨fb, by simp [isStr], hfb⟩
  | num n => exact ⟨fb, by simp [isStr], hfb⟩
  | arr elems => exact ⟨fb, by simp [isStr], hfb⟩
  | obj fields => exact ⟨fb, by simp [isStr], hfb⟩

/-- Claim C2: for every decoded error body shape and every HTTP
status/statusText, the errorMessage the request client hands to the Error
constructor is a string and that string is non-empty (never an object). -/
theorem normalized_message_nonempty_string (errorData : Json) (status : Nat)
    (statusText : String) :
    ∃ s : String, normalizeError errorData status statusText = Json.str s ∧ s ≠ "" := by
  unfold normalizeError
  have hfb := httpFallback_ne_empty status statusText
  have hstr : truthy (Json.str (httpFallback status statusText)) = true :=
    (truthy_str_iff _).mpr hfb
  have hm1 : truthy (jsOr (getF errorData "message")
      (jsOr (getF (getF errorData "error") "message")
        (jsOr (stringOrNull (getF errorData "error"))
          (.str (httpFallback status statusText))))) = true :=
    jsOr_truthy _ _ (jsOr_truthy _ _ (jsOr_truthy _ _ hstr))
  by_cases hd : (truthy (getF errorData "data") && typeofObject (getF errorData "data")) = true
  · simp only [hd, if_true]
    exact finalCheck_str _ _ hfb (jsOr_truthy _ _ (jsOr_truthy _ _ hm1))
  · simp only [hd, if_false]
    exact finalCheck_str _ _ hfb hm1

theorem firstTruthy_cons (x : Json) (xs : List Json) (d : Json) :
    firstTruthy (x :: xs) d = jsOr x (firstTruthy xs d) := rfl

theorem firstTruthy_nil (d : Json) : firstTruthy [] d = d := rfl

theorem finalCheck_eq_stringElse (m : Json) (fb : String) :
    (if isStr m then m else Json.str fb) = Json.str (stringElse m fb) := by
  cases m <;> simp [isStr, stringElse]

/-- Claim C3 (amended): for every decoded error body and status, the
message the code produces equals the amended chain: first-truthy selection
over message, error.message and error-if-a-string with the HTTP fallback
last; a truthy object-typed data overrides with the first truthy of
data.message and data.error.message only; a final non-string result is
replaced by the HTTP fallback. -/
theorem normalizeError_eq_amendedMessage (b : Json) (status : Nat) (statusText : String) :
    normalizeError b status statusText = Json.str (amendedMessage b status statusText) := by
  unfold normalizeError amendedMessage
  simp only [firstTruthy_cons, firstTruthy_nil]
  exact finalCheck_eq_stringElse _ _

/-- Claim C3 counterexample.  Body (i) {data: {error: "boom"}}: the
claimed chain repeats step 3 under data and yields "boom", while the code
never consults data.error as a bare string and falls back to the HTTP
phrase.  Body (ii) {message: 42, error: "oops"}: the claimed chain skips
the non-string message and takes step 3, while the truthy non-string
poisons the code's chain into the fallback.  Body (iii)
{message: "outer", data: {message: 42}}: the claimed chain keeps "outer"
because the data repeat yields no string, while the code overrides with
the truthy 42 and ends in the fallback. -/
theorem error_chain_claim_counterexample :
    (normalizeError (Json.obj [("data", Json.obj [("error", Json.str "boom")])]) 404 "Not Found"
        = Json.str "HTTP 404: Not Found" ∧
      specMessage (Json.obj [("data", Json.obj [("error", Json.str "boom")])]) 404 "Not Found"
        = "boom" ∧
      normalizeError (Json.obj [("data", Json.obj [("error", Json.str "boom")])]) 404 "Not Found"
        ≠ Json.str (specMessage (Json.obj [("data", Json.obj [("error", Json.str "boom")])])
            404 "Not Found")) ∧
    (normalizeError (Json.obj [("message", Json.num 42), ("error", Json.str "oops")])
        400 "Bad Request" = Json.str "HTTP 400: Bad Request" ∧
      specMessage (Json.obj [("message", Json.num 42), ("error", Json.str "oops")])
        400 "Bad Request" = "oops") ∧
    (normalizeError
        (Json.obj [("message", Json.str "outer"), ("data", Json.obj [("message", Json.num 42)])])
        400 "Bad Request" = Json.str "HTTP 400: Bad Request" ∧
      specMessage
        (Json.obj [("message", Json.str "outer"), ("data", Json.obj [("message", Json.num 42)])])
        400 "Bad Request" = "outer") := by
  refine ⟨⟨rfl, rfl, ?_⟩, ⟨rfl, rfl⟩, ⟨rfl, rfl⟩⟩
  intro h
  have h2 : Json.str "HTTP 404: Not Found" = Json.str "boom" := h
  exact absurd (Json.str.inj h2) (by decide)

/-- Claim C1 counterexample: the body {data: 0} has a data property, yet
the truthiness test leaves it unwrapped, so the caller receives the full
envelope rather than body.data. -/
theorem unwrap_claim_counterexample :
    hasField (Json.obj [("data", Json.num 0)]) "data" = true ∧
    getF (Json.obj [("data", Json.num 0)]) "data" = Json.num 0 ∧
    unwrapResponse (Json.obj [("data", Json.num 0)]) = Json.obj [("data", Json.num 0)] ∧
    Json.obj [("data", Json.num 0)] ≠ Json.num 0 := by
  refine ⟨rfl, rfl, rfl, ?_⟩
  intro h
  exact Json.noConfusion h

/-- Claim C1 (amended): on a successful response the client returns
body.data exactly when body.data is truthy and the full decoded body
otherwise (in particular when the data property is absent, or present but
falsy); the unwrapping is applied exactly once and never recurses into a
nested data wrapper. -/
theorem unwrap_truthy_once :
    (∀ body : Json, truthy (getF body "data") = true →
        unwrapResponse body = getF body "data") ∧
    (∀ body : Json, truthy (getF body "data") = false →
        unwrapResponse body = body) ∧
    (∀ inner : Json,
        unwrapResponse (Json.obj [("data", Json.obj [("data", inner)])])
          = Json.obj [("data", inner)]) := by
  refine ⟨?_, ?_, ?_⟩
  · intro body h
    simp [unwrapResponse, h]
  · intro body h
    simp [unwrapResponse, h]
  · intro inner
    simp [unwrapResponse, getF, getField, truthy]

/-- Witness for claim C1: a wrapped payload is unwrapped once. -/
theorem unwrap_truthy_once_witness :
    unwrapResponse (Json.obj [("message", Json.str "ok"), ("data", Json.str "payload")])
      = Json.str "payload" :=
  unwrap_truthy_once.1 _ (by decide)

/-- Claim C10: evaluation of the config-header construction.  With no
caller headers the default Content-Type survives and a truthy token
attaches the bearer header; but any caller-supplied headers object
replaces the merged defaults wholesale (the trailing options spread), so
caller headers that do not mention Content-Type lose the
application/json default. -/
theorem configHeaders_eval :
    getHeader (configHeaders (some [("X-Requested-With", "fetch")]) none) "Content-Type"
        = none ∧
    configHeaders (some [("X-Requested-With", "fetch")]) none
        = [("X-Requested-With", "fetch")] ∧
    getHeader (configHeaders none none) "Content-Type" = some "application/json" ∧
    getHeader (configHeaders none (some "tok")) "Content-Type" = some "application/json" ∧
    getHeader (configHeaders none (some "tok")) "Authorization" = some "Bearer tok" ∧
    getHeader (configHeaders (some [("X-Requested-With", "fetch")]) (some "tok"))
        "Authorization" = some "Bearer tok" ∧
    getHeader (configHeaders none (some "")) "Authorization" = none ∧
    getHeader (configHeaders none none) "Authorization" = none :=
  ⟨rfl, rfl, rfl, rfl, rfl, rfl, rfl, rfl⟩

/-- Claim C9: evaluation of the mount-time guard.  With an email and no
verified OTP the guard redirects to the OTP step only; with no email and
a verified OTP it redirects to the request-reset step only; but with both
slots absent it pushes the request-reset route and then the OTP route, so
the navigation that sticks is the later OTP one, not the earliest unmet
step. -/
theorem guardRedirects_eval :
    guardRedirects none none = ["/auth/reset-password", "/auth/verify-otp-reset"] ∧
    (guardRedirects none none).getLast? = some "/auth/verify-otp-reset" ∧
    guardRedirects none (some "123456") = ["/auth/reset-password"] ∧
    guardRedirects (some "user@example.com") none = ["/auth/verify-otp-reset"] ∧
    guardRedirects (some "user@example.com") (some "123456") = [] ∧
    guardRedirects (some "") (some "123456") = ["/auth/reset-password"] :=
  ⟨rfl, rfl, rfl, rfl, rfl, rfl⟩

/-- Claim C4: TokenManager.refreshAccessToken returns null without a
network call when no truthy refresh token is stored; with one stored, a
successful backend exchange stores the returned pair and returns the new
access token, and a failed exchange clears both slots and returns null,
so no failure path leaves stale tokens behind. -/
theorem refreshAccessToken_spec :
    (∀ (w : Bool) (st : TokenStorage) (b : RefreshBackend),
        strTruthy (getRefreshToken w st) = false →
        refreshAccessToken w st b = ⟨st, none, false⟩) ∧
    (∀ (st : TokenStorage) (a r : String),
        strTruthy (getRefreshToken true st) = true →
        refreshAccessToken true st (.success a r) = ⟨⟨some a, some r⟩, some a, true⟩) ∧
    (∀ (st : TokenStorage),
        strTruthy (getRefreshToken true st) = true →
        refreshAccessToken true st .failure = ⟨⟨none, none⟩, none, true⟩) := by
  refine ⟨?_, ?_, ?_⟩
  · intro w st b h
    simp [refreshAccessToken, h]
  · intro st a r h
    simp [refreshAccessToken, h, setTokens]
  · intro st h
    simp [refreshAccessToken, h, clearTokens]

/-- Witness for claim C4: with a stored refresh token, a failed exchange
clears both slots and a successful one stores the new pair; with none, no
network call is made. -/
theorem refreshAccessToken_spec_witness :
    refreshAccessToken true ⟨some "A", some "R"⟩ RefreshBackend.failure
        = ⟨⟨none, none⟩, none, true⟩ ∧
    refreshAccessToken true ⟨some "A", some "R"⟩ (RefreshBackend.success "a2" "r2")
        = ⟨⟨some "a2", some "r2"⟩, some "a2", true⟩ ∧
    refreshAccessToken true ⟨some "A", none⟩ RefreshBackend.failure
        = ⟨⟨some "A", none⟩, none, false⟩ :=
  ⟨refreshAccessToken_spec.2.2 _ (by decide),
   refreshAccessToken_spec.2.1 _ _ _ (by decide),
   refreshAccessToken_spec.1 _ _ _ (by decide)⟩

theorem paired_applyTokenOp (w : Bool) (st : TokenStorage) (op : TokenOp)
    (h : paired st = true) : paired (applyTokenOp w st op) = true := by
  cases op with
  | set a r =>
    simp only [applyTokenOp, setTokens]
    split
    · rfl
    · exact h
  | clear =>
    simp only [applyTokenOp, clearTokens]
    split
    · rfl
    · exact h
  | refresh b =>
    simp only [applyTokenOp, refreshAccessToken]
    split
    · exact h
    · cases b with
      | success a r =>
        simp only [setTokens]
        split
        · rfl
        · exact h
      | failure =>
        simp only [clearTokens]
        split
        · rfl
        · exact h

/-- Claim C5: every TokenManager mutating operation maps a paired token
store (both slots occupied or both empty) to a paired store, hence any
sequence of setTokens, clearTokens and refreshAccessToken calls preserves
the pairing invariant, and it holds from the empty store. -/
theorem token_pair_invariant :
    (∀ (w : Bool) (st : TokenStorage) (op : TokenOp),
        paired st = true → paired (applyTokenOp w st op) = true) ∧
    (∀ (w : Bool) (ops : List TokenOp) (st : TokenStorage),
        paired st = true → paired (runTokenOps w st ops) = true) ∧
    paired ⟨none, none⟩ = true := by
  refine ⟨paired_applyTokenOp, ?_, rfl⟩
  intro w ops
  induction ops with
  | nil => intro st h; exact h
  | cons op rest ih =>
    intro st h
    have hstep := paired_applyTokenOp w st op h
    simpa [runTokenOps, List.foldl] using ih (applyTokenOp w st op) hstep

/-- Witness for claim C5: a concrete operation sequence starting from the
empty store ends paired. -/
theorem token_pair_invariant_witness :
    paired (runTokenOps true ⟨none, none⟩
      [TokenOp.set "a1" "r1", TokenOp.refresh RefreshBackend.failure,
       TokenOp.set "a2" "r2", TokenOp.refresh (RefreshBackend.success "a3" "r3"),
       TokenOp.clear]) = true :=
  token_pair_invariant.2.1 true _ ⟨none, none⟩ (by decide)

/-- Claim C6: the confirm-reset handler runs its five local checks in
order before any network call, short-circuiting on the first failure —
email present, both password fields non-empty, passwords equal, length at
least 6, verified OTP present — each failure making no backend call and
clearing no flow-state field (the missing-OTP failure also redirects to
the OTP step); only when all five pass is the backend called with the
stored email, the stored verified OTP and the new password. -/
theorem confirm_reset_local_validation :
    (∀ (np cp : String) (st : FlowState) (b : BackendCall) (lo : LoginOutcome),
        verifyResetPassword "" np cp st b lo
          = localStopTrace st "Silakan mulai ulang proses reset password" []) ∧
    (∀ (e np cp : String) (st : FlowState) (b : BackendCall) (lo : LoginOutcome),
        e ≠ "" → (np = "" ∨ cp = "") →
        verifyResetPassword e np cp st b lo
          = localStopTrace st "Silakan masukkan password baru dan konfirmasi password" []) ∧
    (∀ (e np cp : String) (st : FlowState) (b : BackendCall) (lo : LoginOutcome),
        e ≠ "" → np ≠ "" → cp ≠ "" → np ≠ cp →
        verifyResetPassword e np cp st b lo
          = localStopTrace st "Password baru dan konfirmasi password tidak sama" []) ∧
    (∀ (e np cp : String) (st : FlowState) (b : BackendCall) (lo : LoginOutcome),
        e ≠ "" → np ≠ "" → cp ≠ "" → np = cp → np.length < 6 →
        verifyResetPassword e np cp st b lo
          = localStopTrace st "Password minimal 6 karakter" []) ∧
    (∀ (e np cp : String) (st : FlowState) (b : BackendCall) (lo : LoginOutcome),
        e ≠ "" → np ≠ "" → cp ≠ "" → np = cp → ¬ np.length < 6 →
        strTruthy st.verifiedOtp = false →
        verifyResetPassword e np cp st b lo
          = localStopTrace st "Silakan verifikasi OTP terlebih dahulu" ["/auth/verify-otp-reset"]) ∧
    (∀ (e np cp otp : String) (st : FlowState) (b : BackendCall) (lo : LoginOutcome),
        passesLocalChecks e np cp st = true → st.verifiedOtp = some otp →
        (verifyResetPassword e np cp st b lo).backendCall = some (e, otp, np)) := by
  refine ⟨?_, ?_, ?_, ?_, ?_, ?_⟩
  · intro np cp st b lo
    simp [verifyResetPassword]
  · intro e np cp st b lo h1 h2
    simp only [verifyResetPassword]
    rw [if_neg h1, if_pos h2]
  · intro e np cp st b lo h1 h2 h3 h4
    simp only [verifyResetPassword]
    rw [if_neg h1, if_neg (not_or.mpr ⟨h2, h3⟩), if_pos h4]
  · intro e np cp st b lo h1 h2 h3 h4 h5
    simp only [verifyResetPassword]
    rw [if_neg h1, if_neg (not_or.mpr ⟨h2, h3⟩), if_neg (fun hc => hc h4), if_pos h5]
  · intro e np cp st b lo h1 h2 h3 h4 h5 h6
    simp only [verifyResetPassword]
    rw [if_neg h1, if_neg (not_or.mpr ⟨h2, h3⟩), if_neg (fun hc => hc h4), if_neg h5]
    cases hso : st.verifiedOtp with
    | none => rfl
    | some o =>
      rw [hso] at h6
      rw [h6]
  · intro e np cp otp st b lo h hso
    simp only [passesLocalChecks, Bool.and_eq_true, decide_eq_true_eq, beq_iff_eq] at h
    obtain ⟨⟨⟨⟨⟨h1, h2⟩, h3⟩, h4⟩, h5⟩, h6⟩ := h
    simp only [verifyResetPassword]
    rw [if_neg h1, if_neg (not_or.mpr ⟨h2, h3⟩), if_neg (fun hc => hc h4), if_neg h5]
    rw [hso] at h6 ⊢
    rw [h6]
    cases b <;> cases lo <;> rfl

/-- Witness for claim C6: a too-short password is rejected locally with
untouched flow state, and fully valid inputs reach the backend with the
stored email and verified OTP. -/
theorem confirm_reset_local_validation_witness :
    verifyResetPassword "user@example.com" "abc12" "abc12"
        ⟨some "user@example.com", some "123456"⟩ (BackendCall.failure "x") LoginOutcome.ok
      = localStopTrace ⟨some "user@example.com", some "123456"⟩
          "Password minimal 6 karakter" [] ∧
    (verifyResetPassword "user@example.com" "abcdef" "abcdef"
        ⟨some "user@example.com", some "123456"⟩ (BackendCall.failure "x")
        LoginOutcome.ok).backendCall
      = some ("user@example.com", "123456", "abcdef") :=
  ⟨confirm_reset_local_validation.2.2.2.1 _ _ _ _ _ _ (by decide) (by decide) (by decide)
      rfl (by decide),
   confirm_reset_local_validation.2.2.2.2.2 _ _ _ _ _ _ _ (by decide) rfl⟩

theorem verifyResetPassword_unfold_pass (e np cp otp : String) (st : FlowState)
    (b : BackendCall) (lo : LoginOutcome)
    (h : passesLocalChecks e np cp st = true) (hso : st.verifiedOtp = some otp) :
    verifyResetPassword e np cp st b lo =
      match b with
      | BackendCall.success a r =>
        match lo with
        | LoginOutcome.ok =>
          ⟨some (e, otp, np), some ⟨none, none⟩, some (a, r), ⟨none, none⟩, ["/"], true, none⟩
        | LoginOutcome.notOk =>
          ⟨some (e, otp, np), some ⟨none, none⟩, some (a, r), ⟨none, none⟩,
            ["auth/login"], true, none⟩
        | LoginOutcome.raised =>
          ⟨some (e, otp, np), some ⟨none, none⟩, some (a, r), ⟨none, none⟩,
            ["/auth/login"], true, none⟩
      | BackendCall.failure msg =>
        ⟨some (e, otp, np), none, none, ⟨st.resetEmail, none⟩, [], false, some msg⟩ := by
  simp only [passesLocalChecks, Bool.and_eq_true, decide_eq_true_eq, beq_iff_eq] at h
  obtain ⟨⟨⟨⟨⟨h1, h2⟩, h3⟩, h4⟩, h5⟩, h6⟩ := h
  simp only [verifyResetPassword]
  rw [if_neg h1, if_neg (not_or.mpr ⟨h2, h3⟩), if_neg (fun hc => hc h4), if_neg h5]
  rw [hso] at h6 ⊢
  rw [h6]

/-- Claim C7: the state-clearing part holds — when the five checks pass
and the confirm-reset backend call succeeds, both sessionStorage slots
are already cleared at the moment the signIn bridge is invoked and stay
cleared afterwards for every bridge outcome, with success reported and no
error surfaced.  The routing part fails for a bridge that resolves
without ok: that branch pushes the slash-less relative path "auth/login",
which the pages router resolves under the current /auth/... URL and so
does not reach the login route; only the rejecting branch pushes the
intended "/auth/login". -/
theorem confirm_reset_success_clears_state :
    ∀ (e np cp : String) (st : FlowState) (a r : String) (lo : LoginOutcome),
      passesLocalChecks e np cp st = true →
      (verifyResetPassword e np cp st (BackendCall.success a r) lo).storageAtLogin
          = some ⟨none, none⟩ ∧
      (verifyResetPassword e np cp st (BackendCall.success a r) lo).finalStorage
          = ⟨none, none⟩ ∧
      (verifyResetPassword e np cp st (BackendCall.success a r) lo).loginCall = some (a, r) ∧
      (verifyResetPassword e np cp st (BackendCall.success a r) lo).successToast = true ∧
      (verifyResetPassword e np cp st (BackendCall.success a r) lo).errorShown = none ∧
      (lo = LoginOutcome.ok →
        (verifyResetPassword e np cp st (BackendCall.success a r) lo).redirects = ["/"]) ∧
      (lo = LoginOutcome.notOk →
        (verifyResetPassword e np cp st (BackendCall.success a r) lo).redirects
          = ["auth/login"]) ∧
      (lo = LoginOutcome.raised →
        (verifyResetPassword e np cp st (BackendCall.success a r) lo).redirects
          = ["/auth/login"]) := by
  intro e np cp st a r lo h
  have h6 : strTruthy st.verifiedOtp = true := by
    simp only [passesLocalChecks, Bool.and_eq_true] at h
    exact h.2
  obtain ⟨otp, hso⟩ : ∃ otp, st.verifiedOtp = some otp := by
    cases hs : st.verifiedOtp with
    | none => rw [hs] at h6; exact absurd h6 (by decide)
    | some o => exact ⟨o, rfl⟩
  rw [verifyResetPassword_unfold_pass e np cp otp st _ _ h hso]
  cases lo <;> simp

/-- Witness for claim C7: concrete valid inputs with a succeeding backend
leave both slots cleared for a rejecting bridge, which routes to
"/auth/login"; the failing input is the bridge that resolves without ok,
whose push is the malformed relative "auth/login". -/
theorem confirm_reset_success_clears_state_witness :
    (verifyResetPassword "user@example.com" "abcdef" "abcdef"
        ⟨some "user@example.com", some "123456"⟩ (BackendCall.success "at" "rt")
        LoginOutcome.raised).finalStorage = ⟨none, none⟩ ∧
    (verifyResetPassword "user@example.com" "abcdef" "abcdef"
        ⟨some "user@example.com", some "123456"⟩ (BackendCall.success "at" "rt")
        LoginOutcome.raised).redirects = ["/auth/login"] ∧
    (verifyResetPassword "user@example.com" "abcdef" "abcdef"
        ⟨some "user@example.com", some "123456"⟩ (BackendCall.success "at" "rt")
        LoginOutcome.notOk).finalStorage = ⟨none, none⟩ ∧
    (verifyResetPassword "user@example.com" "abcdef" "abcdef"
        ⟨some "user@example.com", some "123456"⟩ (BackendCall.success "at" "rt")
        LoginOutcome.notOk).redirects = ["auth/login"] :=
  have h := confirm_reset_success_clears_state "user@example.com" "abcdef" "abcdef"
    ⟨some "user@example.com", some "123456"⟩ "at" "rt" LoginOutcome.raised (by decide)
  have h2 := confirm_reset_success_clears_state "user@example.com" "abcdef" "abcdef"
    ⟨some "user@example.com", some "123456"⟩ "at" "rt" LoginOutcome.notOk (by decide)
  ⟨h.2.1, h.2.2.2.2.2.2.2 rfl, h2.2.1, h2.2.2.2.2.2.2.1 rfl⟩

/-- Claim C8: when the five checks pass and the confirm-reset backend call
fails, exactly the verified_otp slot is cleared while the stored email
survives, the thrown error's message is surfaced, and no redirect is
issued (the flow stays on step 3). -/
theorem confirm_reset_failure_keeps_email :
    ∀ (e np cp : String) (st : FlowState) (msg : String) (lo : LoginOutcome),
      passesLocalChecks e np cp st = true →
      (verifyResetPassword e np cp st (BackendCall.failure msg) lo).finalStorage
          = ⟨st.resetEmail, none⟩ ∧
      (verifyResetPassword e np cp st (BackendCall.failure msg) lo).errorShown = some msg ∧
      (verifyResetPassword e np cp st (BackendCall.failure msg) lo).redirects = [] ∧
      (verifyResetPassword e np cp st (BackendCall.failure msg) lo).successToast = false ∧
      (verifyResetPassword e np cp st (BackendCall.failure msg) lo).loginCall = none := by
  intro e np cp st msg lo h
  have h6 : strTruthy st.verifiedOtp = true := by
    simp only [passesLocalChecks, Bool.and_eq_true] at h
    exact h.2
  obtain ⟨otp, hso⟩ : ∃ otp, st.verifiedOtp = some otp := by
    cases hs : st.verifiedOtp with
    | none => rw [hs] at h6; exact absurd h6 (by decide)
    | some o => exact ⟨o, rfl⟩
  rw [verifyResetPassword_unfold_pass e np cp otp st _ _ h hso]
  simp

/-- Witness for claim C8: a concrete failing backend call keeps the email
slot, clears the OTP slot and surfaces the message. -/
theorem confirm_reset_failure_keeps_email_witness :
    (verifyResetPassword "user@example.com" "abcdef" "abcdef"
        ⟨some "user@example.com", some "123456"⟩ (BackendCall.failure "OTP salah")
        LoginOutcome.ok).finalStorage = ⟨some "user@example.com", none⟩ ∧
    (verifyResetPassword "user@example.com" "abcdef" "abcdef"
        ⟨some "user@example.com", some "123456"⟩ (BackendCall.failure "OTP salah")
        LoginOutcome.ok).errorShown = some "OTP salah" :=
  have h := confirm_reset_failure_keeps_email "user@example.com" "abcdef" "abcdef"
    ⟨some "user@example.com", some "123456"⟩ "OTP salah" LoginOutcome.ok (by decide)
  ⟨h.1, h.2.1⟩
